/-
  Verification development for the AidMate crisis fetcher service (src/app.py).

  The service is embedded shallowly: each Python puller becomes a Lean function
  from the (already received) HTTP fetch outcome to `Except PyErr (List Rec)`,
  where `PyErr` models a raised Python exception and `.ok` a normal return.
  Machine floats from the JSON feeds are modelled as rationals (ℚ); Python's
  `str()` rendering of numbers is modelled by `ratStr` (the claims under proof
  never depend on the exact decimal rendering, only on it being a function).
-/
import Mathlib

set_option maxRecDepth 100000
set_option linter.unusedVariables false

/-! ## SHA-256 (hashlib.sha256) -/

/-- Truncate to a 32-bit word, as Python's fixed-width SHA-256 arithmetic. -/
def w32 (n : Nat) : Nat := n % 4294967296

/-- Rotate a 32-bit word right by `n` bits. -/
def rotr (n x : Nat) : Nat := w32 ((x >>> n) ||| (x <<< (32 - n)))

def bigSigma0 (x : Nat) : Nat := rotr 2 x ^^^ rotr 13 x ^^^ rotr 22 x
def bigSigma1 (x : Nat) : Nat := rotr 6 x ^^^ rotr 11 x ^^^ rotr 25 x
def smallSigma0 (x : Nat) : Nat := rotr 7 x ^^^ rotr 18 x ^^^ (x >>> 3)
def smallSigma1 (x : Nat) : Nat := rotr 17 x ^^^ rotr 19 x ^^^ (x >>> 10)

def shaK : List Nat :=
  [1116352408, 1899447441, 3049323471, 3921009573,
   961987163, 1508970993, 2453635748, 2870763221,
   3624381080, 310598401, 607225278, 1426881987,
   1925078388, 2162078206, 2614888103, 3248222580,
   3835390401, 4022224774, 264347078, 604807628,
   770255983, 1249150122, 1555081692, 1996064986,
   2554220882, 2821834349, 2952996808, 3210313671,
   3336571891, 3584528711, 113926993, 338241895,
   666307205, 773529912, 1294757372, 1396182291,
   1695183700, 1986661051, 2177026350, 2456956037,
   2730485921, 2820302411, 3259730800, 3345764771,
   3516065817, 3600352804, 4094571909, 275423344,
   430227734, 506948616, 659060556, 883997877,
   958139571, 1322822218, 1537002063, 1747873779,
   1955562222, 2024104815, 2227730452, 2361852424,
   2428436474, 2756734187, 3204031479, 3329325298]

structure H8 where
  a : Nat
  b : Nat
  c : Nat
  d : Nat
  e : Nat
  f : Nat
  g : Nat
  h : Nat
deriving DecidableEq

def shaInit : H8 :=
  ⟨1779033703, 3144134277, 1013904242, 2773480762,
   1359893119, 2600822924, 528734635, 1541459225⟩

/-- Extend a 16-word message block, appending `k` further schedule words. -/
def sched (ws : List Nat) : Nat → List Nat
  | 0 => ws
  | k + 1 =>
    let n := ws.length
    let w := w32 (smallSigma1 (ws.getD (n - 2) 0) + ws.getD (n - 7) 0 +
                  smallSigma0 (ws.getD (n - 15) 0) + ws.getD (n - 16) 0)
    sched (ws ++ [w]) k

/-- One SHA-256 compression round; the pair carries the round constant and schedule word. -/
def shaRound (st : H8) (kw : Nat × Nat) : H8 :=
  let ch := (st.e &&& st.f) ^^^ ((st.e ^^^ 4294967295) &&& st.g)
  let maj := (st.a &&& st.b) ^^^ (st.a &&& st.c) ^^^ (st.b &&& st.c)
  let t1 := w32 (st.h + bigSigma1 st.e + ch + kw.1 + kw.2)
  let t2 := w32 (bigSigma0 st.a + maj)
  ⟨w32 (t1 + t2), st.a, st.b, st.c, w32 (st.d + t1), st.e, st.f, st.g⟩

def addH (x y : H8) : H8 :=
  ⟨w32 (x.a + y.a), w32 (x.b + y.b), w32 (x.c + y.c), w32 (x.d + y.d),
   w32 (x.e + y.e), w32 (x.f + y.f), w32 (x.g + y.g), w32 (x.h + y.h)⟩

def processBlock (hv : H8) (block : List Nat) : H8 :=
  let ws := sched block 48
  addH hv ((shaK.zip ws).foldl shaRound hv)

/-- UTF-8 bytes of a character (str.encode("utf-8") per character). -/
def utf8Bytes (c : Char) : List Nat :=
  let n := c.toNat
  if n < 128 then [n]
  else if n < 2048 then [192 + n / 64, 128 + n % 64]
  else if n < 65536 then [224 + n / 4096, 128 + n / 64 % 64, 128 + n % 64]
  else [240 + n / 262144, 128 + n / 4096 % 64, 128 + n / 64 % 64, 128 + n % 64]

def strBytes (s : String) : List Nat := s.data.flatMap utf8Bytes

/-- SHA-256 message padding: 0x80, zeros, then the bit length in 8 big-endian bytes. -/
def shaPad (msg : List Nat) : List Nat :=
  let len := msg.length
  let zeros := (64 + 56 - (len + 1) % 64) % 64
  let bits := 8 * len
  msg ++ [128] ++ List.replicate zeros 0 ++
    [bits >>> 56 % 256, bits >>> 48 % 256, bits >>> 40 % 256, bits >>> 32 % 256,
     bits >>> 24 % 256, bits >>> 16 % 256, bits >>> 8 % 256, bits % 256]

/-- Group bytes into big-endian 32-bit words. -/
def words32 : List Nat → List Nat
  | b0 :: b1 :: b2 :: b3 :: rest => (b0 * 16777216 + b1 * 65536 + b2 * 256 + b3) :: words32 rest
  | _ => []

/-- Split a word list into 16-word (64-byte) message blocks. -/
def blocks16 : List Nat → List (List Nat)
  | w0 :: w1 :: w2 :: w3 :: w4 :: w5 :: w6 :: w7 ::
    w8 :: w9 :: w10 :: w11 :: w12 :: w13 :: w14 :: w15 :: rest =>
      [w0, w1, w2, w3, w4, w5, w6, w7, w8, w9, w10, w11, w12, w13, w14, w15] :: blocks16 rest
  | _ => []

def sha256state (s : String) : H8 :=
  (blocks16 (words32 (shaPad (strBytes s)))).foldl processBlock shaInit

def hexChar (n : Nat) : Char := "0123456789abcdef".data.getD n '0'

def hexOfWord (w : Nat) : List Char :=
  (List.range 8).map (fun i => hexChar (w / 16 ^ (7 - i) % 16))

def hexdigest (hv : H8) : List Char :=
  ([hv.a, hv.b, hv.c, hv.d, hv.e, hv.f, hv.g, hv.h].map hexOfWord).flatten

/-- Model of `sha16`: `hashlib.sha256(s.encode("utf-8")).hexdigest()[:16]` (src/app.py line 26). -/
def sha16 (s : String) : String := String.mk ((hexdigest (sha256state s)).take 16)

/-! ## Python string / number helpers -/

/-- ASCII lowercasing of one character (str.lower; the feeds are ASCII). -/
def toLowerC (c : Char) : Char :=
  if 'A' ≤ c ∧ c ≤ 'Z' then Char.ofNat (c.toNat + 32) else c

def toLowerL (cs : List Char) : List Char := cs.map toLowerC

def toLowerS (s : String) : String := String.mk (toLowerL s.data)

/-- Python's `needle in hay` substring containment. -/
def containsSub (needle : List Char) : List Char → Bool
  | [] => needle.isPrefixOf []
  | c :: rest => needle.isPrefixOf (c :: rest) || containsSub needle rest

def containsSubS (needle hay : String) : Bool := containsSub needle.data hay.data

/-- Truthiness of an optional string (None and "" are falsy). -/
def truthyS : Option String → Bool
  | none => false
  | some s => !(s == "")

/-- Python `a or b` on optional strings: the first operand when truthy, else the second. -/
def pyOrS (a b : Option String) : Option String := if truthyS a then a else b

/-- Python `a or d` with a string default: the value when truthy, else the default. -/
def pyOrStr (a : Option String) (d : String) : String :=
  match a with
  | some s => if s = "" then d else s
  | none => d

/-- f-string rendering of an optional string (str(None) = "None"). -/
def pyStrOpt : Option String → String
  | some s => s
  | none => "None"

/-- Truthiness of an optional float: None and 0.0 are falsy. -/
def truthyQ : Option ℚ → Bool
  | none => false
  | some q => decide (q ≠ 0)

/-- Stand-in for Python's str() on a number; the claims never depend on the
    exact decimal rendering, only on it being a function of the value. -/
def ratStr (q : ℚ) : String :=
  if q.den = 1 then toString q.num else toString q.num ++ "/" ++ toString q.den

/-- Round to the nearest integer, ties to even (Python round / format
    rounding). Computed on num/den directly: with f = ⌊q⌋ the fractional part
    r = q - f satisfies r < 1/2 iff 2(num - f·den) < den. (The Batteries
    rational ring operations are @[irreducible], so using them here would
    block the evaluation the witness theorems rely on.) -/
def roundHalfEven (q : ℚ) : ℤ :=
  let f := q.num.fdiv q.den
  let num2 := 2 * (q.num - f * q.den)
  if num2 < (q.den : ℤ) then f
  else if (q.den : ℤ) < num2 then f + 1
  else if f % 2 = 0 then f else f + 1

/-- Left-pad a digit string with zeros to width `k`. -/
def padZeros (k : Nat) (s : String) : String :=
  String.mk (List.replicate (k - s.length) '0') ++ s

/-- Fixed-point rendering with `prec` decimals (f-string `:.1f` / `:.3f`). -/
def fmtFixed (prec : Nat) (q : ℚ) : String :=
  let n := roundHalfEven (mkRat (q.num * 10 ^ prec) q.den)
  let sign := if n < 0 then "-" else ""
  let m := n.natAbs
  let ip := m / 10 ^ prec
  let fp := m % 10 ^ prec
  if prec = 0 then sign ++ toString ip
  else sign ++ toString ip ++ "." ++ padZeros prec (toString fp)

/-- f-string `:02d` rendering of an integer. -/
def pad2Int (n : ℤ) : String :=
  if 0 ≤ n ∧ n < 10 then "0" ++ toString n else toString n

/-- Civil date from days since the Unix epoch (proleptic Gregorian). -/
def civilFromDays (z0 : ℤ) : ℤ × Nat × Nat :=
  let z := z0 + 719468
  let era := Int.fdiv z 146097
  let doe := (z - era * 146097).toNat
  let yoe := (doe - doe / 1460 + doe / 36524 - doe / 146096) / 365
  let y : ℤ := (yoe : ℤ) + era * 400
  let doy := doe - (365 * yoe + yoe / 4 - yoe / 100)
  let mp := (5 * doy + 2) / 153
  let d := doy - (153 * mp + 2) / 5 + 1
  let m := if mp < 10 then mp + 3 else mp - 9
  (if m ≤ 2 then y + 1 else y, m, d)

/-- Model of `datetime.fromtimestamp(ms/1000, UTC).isoformat()`: UTC civil timestamp from
    epoch milliseconds, microseconds shown only when nonzero, "+00:00" suffix. -/
def isoOfMs (ms : ℚ) : String :=
  let us := roundHalfEven (mkRat (ms.num * 1000) ms.den)
  let sec := Int.fdiv us 1000000
  let micro := (us - 1000000 * sec).toNat
  let days := Int.fdiv sec 86400
  let sod := (sec - 86400 * days).toNat
  let ymd := civilFromDays days
  let hh := sod / 3600
  let mm := sod / 60 % 60
  let ss := sod % 60
  padZeros 4 (toString ymd.1) ++ "-" ++ padZeros 2 (toString ymd.2.1) ++ "-" ++
    padZeros 2 (toString ymd.2.2) ++ "T" ++ padZeros 2 (toString hh) ++ ":" ++
    padZeros 2 (toString mm) ++ ":" ++ padZeros 2 (toString ss) ++
    (if micro = 0 then "" else "." ++ padZeros 6 (toString micro)) ++ "+00:00"

/-- Python whitespace recognised by str.strip(). -/
def isPySpace (c : Char) : Bool :=
  c = ' ' || c = '\t' || c = '\n' || c = '\r' || c = '\x0b' || c = '\x0c'

/-- str.strip(): drop leading and trailing whitespace. -/
def pyStrip (s : String) : String :=
  String.mk (((s.data.dropWhile isPySpace).reverse.dropWhile isPySpace).reverse)

/-- str.split(",") worker: split at every comma, keeping empty fields. -/
def splitCommaAux (cur : List Char) : List Char → List (List Char)
  | [] => [cur.reverse]
  | c :: rest =>
    if c = ',' then cur.reverse :: splitCommaAux [] rest
    else splitCommaAux (c :: cur) rest

/-- Python's `s.split(",")`. -/
def pySplitComma (s : String) : List String := (splitCommaAux [] s.data).map String.mk

/-- str.splitlines() worker over the remaining characters, accumulating the
    current (reversed) line. -/
def splitlinesAux (cur : List Char) : List Char → List (List Char)
  | [] => if cur.isEmpty then [] else [cur.reverse]
  | '\r' :: '\n' :: rest => cur.reverse :: splitlinesAux [] rest
  | '\r' :: rest => cur.reverse :: splitlinesAux [] rest
  | '\n' :: rest => cur.reverse :: splitlinesAux [] rest
  | c :: rest => splitlinesAux (c :: cur) rest

/-- str.splitlines() for the line terminators occurring in the modelled feeds. -/
def pySplitlines (s : String) : List String :=
  (splitlinesAux [] s.data).map String.mk

def isDigitC (c : Char) : Bool := '0' ≤ c && c ≤ '9'

def natOfDigits (ds : List Char) : Nat :=
  ds.foldl (fun a c => a * 10 + (c.toNat - 48)) 0

/-- float(): optional sign, digits with optional fractional part (or a bare
    leading-dot fraction), optional exponent. inf/nan/underscores are omitted:
    they do not occur in the feeds modelled here. The value is assembled with
    mkRat on integer parts (the rational ring operations are @[irreducible]). -/
def parseFloat (cs : List Char) : Option ℚ :=
  let signed : ℤ × List Char :=
    match cs with
    | '+' :: t => (1, t)
    | '-' :: t => (-1, t)
    | _ => (1, cs)
  let ipr := signed.2.span isDigitC
  let fpr : List Char × List Char :=
    match ipr.2 with
    | '.' :: t => t.span isDigitC
    | _ => ([], ipr.2)
  if ipr.1.isEmpty ∧ fpr.1.isEmpty then none
  else
    let k := fpr.1.length
    let mantNum : ℤ := signed.1 * (natOfDigits ipr.1 * 10 ^ k + natOfDigits fpr.1)
    let mantDen : ℕ := 10 ^ k
    let withExp : ℤ → Option ℚ := fun ex =>
      if 0 ≤ ex then some (mkRat (mantNum * 10 ^ ex.toNat) mantDen)
      else some (mkRat mantNum (mantDen * 10 ^ (-ex).toNat))
    let expPart : List Char → Option ℚ := fun t =>
      let esigned : ℤ × List Char :=
        match t with
        | '+' :: u => (1, u)
        | '-' :: u => (-1, u)
        | _ => (1, t)
      if esigned.2.isEmpty ∨ ¬ esigned.2.all isDigitC then none
      else withExp (esigned.1 * natOfDigits esigned.2)
    match fpr.2 with
    | [] => some (mkRat mantNum mantDen)
    | 'e' :: t => expPart t
    | 'E' :: t => expPart t
    | _ => none

/-! ## JSON values, Python exceptions, HTTP fetch outcomes, hazard records -/

/-- Parsed JSON values (the shape `r.json()` yields). -/
inductive Json where
  | null : Json
  | bool (v : Bool) : Json
  | num (q : ℚ) : Json
  | str (s : String) : Json
  | arr (xs : List Json) : Json
  | obj (kvs : List (String × Json)) : Json

/-- An HTTP response body for a JSON endpoint: either not valid JSON
    (`r.json()` raises) or a parsed value. -/
inductive JsonBody where
  | malformed : JsonBody
  | value (j : Json) : JsonBody

/-- A raised Python exception, by class. -/
inductive PyErr where
  | attributeError : PyErr
  | typeError : PyErr
  | valueError : PyErr
  | keyError : PyErr
  | indexError : PyErr
  | httpError (status : Nat) : PyErr
  | transportError : PyErr
  | jsonDecodeError : PyErr
deriving DecidableEq

/-- Outcome of one outbound `requests.get`: a transport-layer failure
    (ConnectionError / Timeout raised) or a response with status and body. -/
inductive Fetch (β : Type) where
  | transportError : Fetch β
  | response (status : Nat) (body : β) : Fetch β

/-- The normalized hazard record dict every puller appends (spec §3). -/
structure Rec where
  id : String
  crisis : String
  source : String
  issued_at : Option String
  expires_at : Option String
  region : List Json
  lat : Option ℚ
  lon : Option ℚ
  severity : Json
  language : String
  url : Option String
  text : String

/-- First binding of a key in a JSON object (json.loads keeps keys unique). -/
def jLookup (kvs : List (String × Json)) (k : String) : Option Json :=
  match kvs with
  | [] => none
  | (k', v) :: rest => if k' = k then some v else jLookup rest k

/-- Python `x.get(k)` — dict lookup defaulting to None; AttributeError off a non-dict. -/
def pyGet (j : Json) (k : String) : Except PyErr Json :=
  match j with
  | .obj kvs => .ok ((jLookup kvs k).getD .null)
  | _ => .error .attributeError

/-- Python `x.get(k, d)` — dict lookup with an explicit default. -/
def pyGetD (j : Json) (k : String) (d : Json) : Except PyErr Json :=
  match j with
  | .obj kvs => .ok ((jLookup kvs k).getD d)
  | _ => .error .attributeError

/-- Python `x[k]` — subscription: KeyError on a missing key, TypeError off a non-dict. -/
def pySubscript (j : Json) (k : String) : Except PyErr Json :=
  match j with
  | .obj kvs =>
    match jLookup kvs k with
    | some v => .ok v
    | none => .error .keyError
  | _ => .error .typeError

/-- Python truthiness of a JSON value. -/
def jTruthy : Json → Bool
  | .null => false
  | .bool v => v
  | .num q => decide (q ≠ 0)
  | .str s => !(s == "")
  | .arr xs => !xs.isEmpty
  | .obj kvs => !kvs.isEmpty

/-- str() of a JSON value in an f-string. Containers get an abbreviated
    rendering (Python's repr differs); no modelled feed and no theorem below
    depends on the container case. -/
def pyStr : Json → String
  | .null => "None"
  | .bool true => "True"
  | .bool false => "False"
  | .num q => ratStr q
  | .str s => s
  | .arr _ => "[...]"
  | .obj _ => "\x7b...\x7d"

/-- int(x): truncate a number toward zero, parse a digit string, or raise. -/
def pyInt (j : Json) : Except PyErr ℤ :=
  match j with
  | .num q => .ok (q.num.tdiv q.den)
  | .str s =>
    let t := pyStrip s
    let core : Option (List Char) :=
      match t.data with
      | '+' :: u => some u
      | '-' :: u => some u
      | u => some u
    match core with
    | some u =>
      if u.isEmpty ∨ ¬ u.all isDigitC then .error .valueError
      else .ok (if t.data.head? = some '-' then -(natOfDigits u : ℤ) else (natOfDigits u : ℤ))
    | none => .error .valueError
  | .bool true => .ok 1
  | .bool false => .ok 0
  | _ => .error .typeError

/-- Model of `for x in xs: out.append(f x)` where `f` may raise: the first
    raise aborts, otherwise the results are collected in order. -/
def pyMapE (f : α → Except PyErr β) : List α → Except PyErr (List β)
  | [] => .ok []
  | x :: xs =>
    match f x with
    | .error e => .error e
    | .ok y =>
      match pyMapE f xs with
      | .error e => .error e
      | .ok ys => .ok (y :: ys)

/-! ## Pullers (src/app.py lines 40-203) -/

def NHC_CURRENT : String := "https://www.nhc.noaa.gov/CurrentStorms.json"

def AIRNOW_BASE : String := "https://www.airnowapi.org/aq/observation/latLong/current/"

/-- Python `[x] if x else []` for an optional string field placed into `region`. -/
def regionOf (a : Option String) : List Json :=
  match a with
  | some s => if s = "" then [] else [.str s]
  | none => []

/-- One USGS GeoJSON feature, in the parsed shape the hourly feed delivers
    (properties.mag is null or a number; geometry.coordinates = [lon, lat, depth]). -/
structure UsgsFeature where
  mag : Option ℚ
  place : Option String
  time : ℚ
  url : Option String
  lon : ℚ
  lat : ℚ
  depth : ℚ

/-- Loop body of pull_usgs_earthquakes (lines 45-69): skip when
    `mag is None or (min_mag and mag < min_mag)`, else build one record. -/
def usgsStep (min_mag : ℚ) (f : UsgsFeature) : Option Rec :=
  match f.mag with
  | none => none
  | some mag =>
    if min_mag ≠ 0 ∧ mag < min_mag then none
    else
      let issued := isoOfMs f.time
      let text := "M" ++ fmtFixed 1 mag ++ " earthquake near " ++ pyStrOpt f.place ++
        " at " ++ issued ++ " (depth " ++ ratStr f.depth ++ " km). " ++
        "Guidance: Drop, Cover, Hold On. More: " ++ pyStrOpt f.url
      some { id := sha16 ("eq-" ++ ratStr f.time ++ "-" ++ ratStr f.lat ++ "-" ++ ratStr f.lon),
             crisis := "earthquake", source := "USGS",
             issued_at := some issued, expires_at := none,
             region := regionOf f.place,
             lat := some f.lat, lon := some f.lon,
             severity := .null, language := "en", url := f.url, text := text }

/-- pull_usgs_earthquakes (lines 40-70): raise_for_status propagates HTTP
    errors; each feature contributes zero or one record. -/
def pull_usgs_earthquakes (min_mag : ℚ) (fet : Fetch (List UsgsFeature)) :
    Except PyErr (List Rec) :=
  match fet with
  | .transportError => .error .transportError
  | .response st feats =>
    if 400 ≤ st ∧ st < 600 then .error (.httpError st)
    else .ok (feats.filterMap (usgsStep min_mag))

/-- One NWS alert's properties, in the parsed shape of the alerts feed. -/
structure NwsAlert where
  headline : Option String
  event : Option String
  description : Option String
  severity : Option String
  onset : Option String
  effective : Option String
  expires : Option String
  areaDesc : Option String
  atId : Option String
  pid : Option String

/-- The lowercased event name: `(p.get("event") or "").lower()` (line 91). -/
def eventLower (p : NwsAlert) : String := toLowerS (pyOrStr p.event "")

/-- Loop body of pull_nws_alerts (lines 82-112). `sha16(detail or headline)`
    raises when both are falsy (None has no .encode). -/
def nwsStep (p : NwsAlert) : Except PyErr Rec :=
  let headline := pyOrS p.headline p.event
  let desc := pyOrStr p.description ""
  let sev := p.severity
  let onset := pyOrS p.onset p.effective
  let expires := p.expires
  let areaDesc := p.areaDesc
  let detail := pyOrS p.atId p.pid
  let event := eventLower p
  let crisis :=
    if containsSubS "hurricane" event || containsSubS "tropical" event then "hurricane"
    else if containsSubS "flood" event then "flood"
    else "severe_weather"
  let text := pyStrOpt headline ++ "\nSeverity: " ++ pyStrOpt sev ++
    "\nArea: " ++ pyStrOpt areaDesc ++ "\nOnset: " ++ pyStrOpt onset ++
    "\nExpires: " ++ pyStrOpt expires ++ "\n\n" ++ desc ++ "\nMore: " ++ pyStrOpt detail
  match pyOrS detail headline with
  | none => .error .attributeError
  | some key =>
    .ok { id := sha16 key, crisis := crisis, source := "NWS",
          issued_at := onset, expires_at := expires,
          region := regionOf areaDesc,
          lat := none, lon := none,
          severity := match sev with | some s => .str s | none => .null,
          language := "en", url := detail, text := text }

/-- pull_nws_alerts (lines 72-113): raise_for_status propagates HTTP errors;
    the states parameter only shapes the outbound query. -/
def pull_nws_alerts (states : List String) (fet : Fetch (List NwsAlert)) :
    Except PyErr (List Rec) :=
  match fet with
  | .transportError => .error .transportError
  | .response st alerts =>
    if 400 ≤ st ∧ st < 600 then .error (.httpError st)
    else pyMapE nwsStep alerts

/-- Loop body of pull_nhc_current (lines 125-143); `s` is one raw activeStorms
    entry, `now` the current wall-clock ISO timestamp. -/
def nhcStorm (now : String) (s : Json) : Except PyErr Rec :=
  match pyGet s "name" with
  | .error e => .error e
  | .ok name =>
  match pyGet s "basin" with
  | .error e => .error e
  | .ok basin =>
  match pyGet s "advisoryNumber" with
  | .error e => .error e
  | .ok adv =>
  match pyGetD s "products" (.obj []) with
  | .error e => .error e
  | .ok prods =>
  match prods with
  | .obj kvs =>
    let text := "Active tropical system " ++ pyStr name ++ " in " ++ pyStr basin ++
      ". Latest advisory #" ++ pyStr adv ++ ". Products: " ++
      String.intercalate ", " (kvs.map (fun kv => kv.1)) ++ "."
    .ok { id := sha16 (pyStr name ++ "-" ++ pyStr basin ++ "-" ++ pyStr adv),
          crisis := "hurricane", source := "NHC",
          issued_at := some now, expires_at := none,
          region := if jTruthy basin then [basin] else [],
          lat := none, lon := none, severity := .null,
          language := "en", url := some NHC_CURRENT, text := text }
  | _ => .error .attributeError

/-- pull_nhc_current (lines 115-144): the try block catches transport errors,
    raise_for_status, and the JSON decode; the activeStorms loop runs outside
    it, so shape errors there still propagate. -/
def pull_nhc_current (fet : Fetch JsonBody) (now : String) : Except PyErr (List Rec) :=
  match fet with
  | .transportError => .ok []
  | .response st body =>
    if 400 ≤ st ∧ st < 600 then .ok []
    else
      match body with
      | .malformed => .ok []
      | .value data =>
        match pyGetD data "activeStorms" (.arr []) with
        | .error e => .error e
        | .ok storms =>
          match storms with
          | .arr ss => pyMapE (nhcStorm now) ss
          | .str s => if s.isEmpty then .ok [] else .error .attributeError
          | .obj kvs => if kvs.isEmpty then .ok [] else .error .attributeError
          | _ => .error .typeError

/-- FIRMS area CSV URL (line 150). -/
def firmsUrl (key : String) (days : Nat) : String :=
  "https://firms.modaps.eosdis.nasa.gov/api/country/csv/" ++ key ++
    "/VIIRS_NOAA20_NRT/" ++ toString days ++ "/USA"

/-- Python `header.index(k)` / `k in header` — position of the first occurrence. -/
def pyIndexOf (xs : List String) (k : String) : Option Nat :=
  match xs with
  | [] => none
  | x :: rest => if x = k then some 0 else (pyIndexOf rest k).map (· + 1)

/-- Python `cols[i]` — IndexError past the end. -/
def pyCell (cols : List String) (i : Nat) : Except PyErr String :=
  match cols[i]? with
  | some c => .ok c
  | none => .error .indexError

def pyFloat (s : String) : Except PyErr ℚ :=
  match parseFloat s.data with
  | some q => .ok q
  | none => .error .valueError

/-- Loop body of pull_firms_us (lines 158-175) over one CSV data row. -/
def firmsRow (key : String) (days : Nat) (now : String)
    (ilat ilon : Nat) (iconf : Option Nat) (row : String) : Except PyErr Rec :=
  let cols := (pySplitComma row).map pyStrip
  match pyCell cols ilat with
  | .error e => .error e
  | .ok slat =>
  match pyFloat slat with
  | .error e => .error e
  | .ok lat =>
  match pyCell cols ilon with
  | .error e => .error e
  | .ok slon =>
  match pyFloat slon with
  | .error e => .error e
  | .ok lon =>
  match (match iconf with | some i => pyCell cols i | none => .ok "NA") with
  | .error e => .error e
  | .ok conf =>
    let text := "Active fire detection (VIIRS) at lat " ++ fmtFixed 3 lat ++
      ", lon " ++ fmtFixed 3 lon ++ ", confidence " ++ conf ++ "."
    .ok { id := sha16 ("firms-" ++ ratStr lat ++ "-" ++ ratStr lon ++ "-" ++ conf ++
                        "-" ++ toString days),
          crisis := "wildfire", source := "NASA_FIRMS",
          issued_at := some now, expires_at := none,
          region := [.str "USA"], lat := some lat, lon := some lon,
          severity := .null, language := "en",
          url := some (firmsUrl key days), text := text }

/-- pull_firms_us (lines 146-176): empty key short-circuits to []; a transport
    error propagates (no try block); parsing happens only when the status is
    200 and "latitude" occurs in the first 200 characters, lowercased. -/
def pull_firms_us (key : String) (days limit_rows : Nat) (now : String)
    (fet : Fetch String) : Except PyErr (List Rec) :=
  if key = "" then .ok []
  else
    match fet with
    | .transportError => .error .transportError
    | .response st body =>
      if st = 200 ∧ containsSub "latitude".data (toLowerL (body.data.take 200)) = true then
        match pySplitlines body with
        | [] => .error .indexError
        | line0 :: rest =>
          let header := (pySplitComma line0).map pyStrip
          match pyIndexOf header "latitude" with
          | none => .error .valueError
          | some ilat =>
            match pyIndexOf header "longitude" with
            | none => .error .valueError
            | some ilon =>
              let iconf := pyIndexOf header "confidence"
              pyMapE (firmsRow key days now ilat ilon iconf) (rest.take limit_rows)
      else .ok []

/-- Loop body of pull_airnow (lines 187-202) over one observation. -/
def airnowItem (lat lon : ℚ) (item : Json) : Except PyErr Rec :=
  match pySubscript item "ParameterName" with
  | .error e => .error e
  | .ok pname =>
  match pySubscript item "AQI" with
  | .error e => .error e
  | .ok aqi =>
  match pySubscript item "DateObserved" with
  | .error e => .error e
  | .ok dateObs =>
  match pySubscript item "HourObserved" with
  | .error e => .error e
  | .ok hourObs =>
  match pySubscript item "Category" with
  | .error e => .error e
  | .ok cat =>
  match pySubscript cat "Name" with
  | .error e => .error e
  | .ok catName =>
  match pyInt hourObs with
  | .error e => .error e
  | .ok h =>
    let text := "Air quality " ++ pyStr pname ++ " AQI " ++ pyStr aqi ++ " at " ++
      pyStr dateObs ++ " " ++ pyStr hourObs ++ ":00 (" ++ pyStr catName ++ ")."
    .ok { id := sha16 ("airnow-" ++ pyStr pname ++ "-" ++ pyStr dateObs ++ "-" ++
                        pyStr hourObs ++ "-" ++ ratStr lat ++ "-" ++ ratStr lon),
          crisis := "wildfire", source := "AirNow",
          issued_at := some (pyStr dateObs ++ "T" ++ pad2Int h ++ ":00:00Z"),
          expires_at := none,
          region := [.str (fmtFixed 3 lat ++ "," ++ fmtFixed 3 lon)],
          lat := some lat, lon := some lon, severity := catName,
          language := "en", url := some AIRNOW_BASE, text := text }

/-- pull_airnow (lines 178-203): empty key short-circuits to []; a transport
    error propagates (no try block); only a 200 response is parsed, any other
    status falls through to the empty list. -/
def pull_airnow (lat lon : ℚ) (dist : ℚ) (key : String)
    (fet : Fetch JsonBody) : Except PyErr (List Rec) :=
  if key = "" then .ok []
  else
    match fet with
    | .transportError => .error .transportError
    | .response st body =>
      if st = 200 then
        match body with
        | .malformed => .error .jsonDecodeError
        | .value j =>
          match j with
          | .arr items => pyMapE (airnowItem lat lon) items
          | .obj kvs => if kvs.isEmpty then .ok [] else .error .typeError
          | .str s => if s.isEmpty then .ok [] else .error .typeError
          | _ => .error .typeError
      else .ok []

/-! ## Aggregation endpoint (src/app.py lines 207-244) -/

/-- Request body of POST /cron/pull (class CronParams, lines 207-216). -/
structure CronParams where
  states : Option (List String) := none
  min_mag : ℚ := mkRat 5 2
  air_lat : Option ℚ := none
  air_lon : Option ℚ := none
  pull_earthquakes : Bool := true
  pull_nws : Bool := true
  pull_nhc : Bool := true
  pull_firms : Bool := true
  pull_airnow : Bool := true

/-- Process-wide configuration and the outcome every outbound call would see:
    the ambient state one request runs against. `ingest` is the ingestion
    collaborator's would-be answer. -/
structure World where
  now : String
  firmsKey : String
  airnowKey : String
  defaultStates : List String
  usgs : Fetch (List UsgsFeature)
  nws : Fetch (List NwsAlert)
  nhc : Fetch JsonBody
  firms : Fetch String
  airnow : Fetch JsonBody
  ingest : Fetch JsonBody

/-- Model of `body.states or DEFAULT_STATES` (line 224): None and [] fall back. -/
def statesOf (body : CronParams) (w : World) : List String :=
  match body.states with
  | some l => if l.isEmpty then w.defaultStates else l
  | none => w.defaultStates

/-- The airnow guard of line 234: `body.pull_airnow and body.air_lat and
    body.air_lon` under Python truthiness. -/
def airCond (body : CronParams) : Bool :=
  body.pull_airnow && truthyQ body.air_lat && truthyQ body.air_lon

/-- Lines 224-235: sequentially extend `chunks` with each enabled puller's
    records; a raise from any invoked puller aborts the request. -/
def cronChunks (body : CronParams) (w : World) : Except PyErr (List Rec) :=
  match (if body.pull_earthquakes then pull_usgs_earthquakes body.min_mag w.usgs else .ok []) with
  | .error e => .error e
  | .ok c1 =>
  match (if body.pull_nws then pull_nws_alerts (statesOf body w) w.nws else .ok []) with
  | .error e => .error e
  | .ok c2 =>
  match (if body.pull_nhc then pull_nhc_current w.nhc w.now else .ok []) with
  | .error e => .error e
  | .ok c3 =>
  match (if body.pull_firms then pull_firms_us w.firmsKey 1 200 w.now w.firms else .ok []) with
  | .error e => .error e
  | .ok c4 =>
  match (if airCond body
         then pull_airnow (body.air_lat.getD 0) (body.air_lon.getD 0) 50 w.airnowKey w.airnow
         else .ok []) with
  | .error e => .error e
  | .ok c5 => .ok (c1 ++ c2 ++ c3 ++ c4 ++ c5)

/-- The JSON object cron_pull answers with (lines 237-244). -/
inductive CronResp where
  | noChunks (added : Nat) (note : String) : CronResp
  | preview (added : Nat) (chunks : List Rec) : CronResp

/-- cron_pull (lines 222-244): empty result gets the zero/note object; a
    non-empty result is counted and previewed (first two records), the
    forwarding call being commented out. -/
def cron_pull (body : CronParams) (w : World) : Except PyErr CronResp :=
  match cronChunks body w with
  | .error e => .error e
  | .ok chunks =>
    if chunks.isEmpty then .ok (.noChunks 0 "no chunks produced (check keys/flags)")
    else .ok (.preview chunks.length (chunks.take 2))

/-! ## Concrete fixtures used by the closed witness and counterexample theorems -/

def defaultRec : Rec :=
  { id := "", crisis := "", source := "", issued_at := none, expires_at := none,
    region := [], lat := none, lon := none, severity := .null, language := "",
    url := none, text := "" }

/-- Project the record list out of a successful puller run. -/
def okList (x : Except PyErr (List Rec)) : List Rec :=
  match x with
  | .ok l => l
  | .error _ => []

def eqFeatA : UsgsFeature :=
  { mag := some 3, place := some "A", time := 5, url := none, lon := 7, lat := 6, depth := 1 }

def eqFeatB : UsgsFeature :=
  { mag := some 4, place := some "B", time := 5, url := some "u", lon := 7, lat := 6, depth := 2 }

def alertHurricane : NwsAlert :=
  { headline := some "Hurricane Warning issued", event := some "Hurricane Warning",
    description := none, severity := some "Extreme", onset := none, effective := none,
    expires := none, areaDesc := some "Coast", atId := some "alert-h", pid := none }

def alertFlood : NwsAlert :=
  { headline := some "Flood Watch issued", event := some "Flood Watch",
    description := none, severity := some "Moderate", onset := none, effective := none,
    expires := none, areaDesc := some "Valley", atId := some "alert-f", pid := none }

def alertWinter : NwsAlert :=
  { headline := some "Winter Storm Warning issued", event := some "Winter Storm Warning",
    description := none, severity := some "Severe", onset := none, effective := none,
    expires := none, areaDesc := some "Hills", atId := some "alert-w", pid := none }

def demoStorm : Json :=
  .obj [("name", .str "MILTON"), ("basin", .str "AL"), ("advisoryNumber", .str "12A"),
        ("products", .obj [("advisory", .str "x")])]

def demoItem : Json :=
  .obj [("ParameterName", .str "PM2.5"), ("AQI", .num 42), ("DateObserved", .str "2025-01-01"),
        ("HourObserved", .num 5), ("Category", .obj [("Name", .str "Good")])]

def demoBody : CronParams := { air_lat := some 1, air_lon := some 10 }

def demoWorld : World :=
  { now := "2025-01-01T00:00:00+00:00", firmsKey := "MAPKEY", airnowKey := "AKEY",
    defaultStates := ["CT", "NJ"],
    usgs := .response 200 [eqFeatA],
    nws := .response 200 [alertFlood],
    nhc := .response 200 (.value (.obj [("activeStorms", .arr [demoStorm])])),
    firms := .response 200 "latitude,longitude,confidence\n1.5,2.5,high",
    airnow := .response 200 (.value (.arr [demoItem])),
    ingest := .transportError }

def emptyBody : CronParams :=
  { pull_earthquakes := false, pull_nws := false, pull_nhc := false,
    pull_firms := false, pull_airnow := false }

def gateBody : CronParams :=
  { pull_earthquakes := false, pull_nws := false, pull_nhc := false, pull_firms := false,
    air_lat := some 1, air_lon := some 10 }

def zeroLatBody : CronParams :=
  { pull_earthquakes := false, pull_nws := false, pull_nhc := false, pull_firms := false,
    air_lat := some 0, air_lon := some 10 }

def demoChunks : List Rec := okList (cronChunks demoBody demoWorld)

def demoRec : Rec := demoChunks.headD defaultRec

/-! ## Supporting lemmas -/

theorem pyMapE_length {f : α → Except PyErr β} {xs : List α} {ys : List β}
    (h : pyMapE f xs = .ok ys) : ys.length = xs.length := by
  induction xs generalizing ys with
  | nil => cases h; rfl
  | cons x xs ih =>
    unfold pyMapE at h
    cases hx : f x with
    | error e => rw [hx] at h; cases h
    | ok y =>
      rw [hx] at h
      cases hrest : pyMapE f xs with
      | error e => rw [hrest] at h; cases h
      | ok ys' =>
        rw [hrest] at h
        cases h
        simp [ih hrest]

theorem pyMapE_mem {f : α → Except PyErr β} {xs : List α} {ys : List β} {r : β}
    (h : pyMapE f xs = .ok ys) (hr : r ∈ ys) : ∃ x ∈ xs, f x = .ok r := by
  induction xs generalizing ys with
  | nil => cases h; cases hr
  | cons x xs ih =>
    unfold pyMapE at h
    cases hx : f x with
    | error e => rw [hx] at h; cases h
    | ok y =>
      rw [hx] at h
      cases hrest : pyMapE f xs with
      | error e => rw [hrest] at h; cases h
      | ok ys' =>
        rw [hrest] at h
        cases h
        rcases List.mem_cons.mp hr with rfl | hr'
        · exact ⟨x, List.mem_cons_self x xs, hx⟩
        · obtain ⟨x', hx', hfx'⟩ := ih hrest hr'
          exact ⟨x', List.mem_cons_of_mem x hx', hfx'⟩

/-- Lowercase-hex alphabet membership, as a Boolean predicate. -/
def isLowerHex (c : Char) : Bool := decide (c ∈ "0123456789abcdef".data)

theorem getD_mem_or_default (l : List Char) (n : Nat) (d : Char) :
    l.getD n d ∈ l ∨ l.getD n d = d := by
  induction l generalizing n with
  | nil => right; cases n <;> rfl
  | cons x xs ih =>
    cases n with
    | zero => left; simp [List.getD]
    | succ k =>
      rcases ih k with h | h
      · left; simpa [List.getD] using Or.inr (by simpa [List.getD] using h)
      · right; simpa [List.getD] using h

theorem hexChar_lowerHex (n : Nat) : isLowerHex (hexChar n) = true := by
  unfold isLowerHex hexChar
  rw [decide_eq_true_eq]
  rcases getD_mem_or_default "0123456789abcdef".data n '0' with h | h
  · exact h
  · rw [h]; decide

theorem hexOfWord_length (w : Nat) : (hexOfWord w).length = 8 := by
  simp [hexOfWord]

theorem hexdigest_length (hv : H8) : (hexdigest hv).length = 64 := by
  simp [hexdigest, List.length_append, hexOfWord_length]

theorem sha16_length (s : String) : (sha16 s).length = 16 := by
  show ((hexdigest (sha256state s)).take 16).length = 16
  simp [List.length_take, hexdigest_length]

theorem mem_hexdigest_lowerHex {hv : H8} {c : Char} (h : c ∈ hexdigest hv) :
    isLowerHex c = true := by
  simp only [hexdigest, List.mem_flatten, List.mem_map] at h
  obtain ⟨l, ⟨w, hw, rfl⟩, hc⟩ := h
  simp only [hexOfWord, List.mem_map] at hc
  obtain ⟨i, hi, rfl⟩ := hc
  exact hexChar_lowerHex _

theorem sha16_lowerHex (s : String) : (sha16 s).data.all isLowerHex = true := by
  rw [List.all_eq_true]
  intro c hc
  exact mem_hexdigest_lowerHex (List.mem_of_mem_take hc)


theorem usgsStep_id {m : ℚ} {f : UsgsFeature} {r : Rec} (h : usgsStep m f = some r) :
    r.id = sha16 ("eq-" ++ ratStr f.time ++ "-" ++ ratStr f.lat ++ "-" ++ ratStr f.lon) := by
  cases hm : f.mag with
  | none => simp [usgsStep, hm] at h
  | some mag =>
    by_cases hc : m ≠ 0 ∧ mag < m
    · simp only [usgsStep, hm] at h
      rw [if_pos hc] at h
      cases h
    · simp only [usgsStep, hm] at h
      rw [if_neg hc] at h
      cases h
      rfl

theorem pull_usgs_id {m : ℚ} {fet : Fetch (List UsgsFeature)} {l : List Rec} {r : Rec}
    (h : pull_usgs_earthquakes m fet = .ok l) (hr : r ∈ l) : ∃ k, r.id = sha16 k := by
  cases fet with
  | transportError => cases h
  | response st feats =>
    by_cases hs : 400 ≤ st ∧ st < 600
    · simp only [pull_usgs_earthquakes] at h
      rw [if_pos hs] at h
      cases h
    · simp only [pull_usgs_earthquakes] at h
      rw [if_neg hs] at h
      cases h
      obtain ⟨f, hf, hstep⟩ := List.mem_filterMap.mp hr
      exact ⟨_, usgsStep_id hstep⟩

theorem nwsStep_id {p : NwsAlert} {r : Rec} (h : nwsStep p = .ok r) :
    ∃ k, r.id = sha16 k := by
  simp only [nwsStep] at h
  cases hk : pyOrS (pyOrS p.atId p.pid) (pyOrS p.headline p.event) with
  | none => rw [hk] at h; cases h
  | some key => rw [hk] at h; cases h; exact ⟨_, rfl⟩

theorem nhcStorm_id {now : String} {s : Json} {r : Rec} (h : nhcStorm now s = .ok r) :
    ∃ k, r.id = sha16 k := by
  simp only [nhcStorm] at h
  cases h1 : pyGet s "name" with
  | error e => rw [h1] at h; cases h
  | ok name =>
  rw [h1] at h
  cases h2 : pyGet s "basin" with
  | error e => rw [h2] at h; cases h
  | ok basin =>
  rw [h2] at h
  cases h3 : pyGet s "advisoryNumber" with
  | error e => rw [h3] at h; cases h
  | ok adv =>
  rw [h3] at h
  cases h4 : pyGetD s "products" (.obj []) with
  | error e => rw [h4] at h; cases h
  | ok prods =>
  rw [h4] at h
  cases prods with
  | obj kvs => cases h; exact ⟨_, rfl⟩
  | null => cases h
  | bool v => cases h
  | num q => cases h
  | str s' => cases h
  | arr xs => cases h

theorem firmsRow_id {key : String} {days : Nat} {now : String} {ilat ilon : Nat}
    {iconf : Option Nat} {row : String} {r : Rec}
    (h : firmsRow key days now ilat ilon iconf row = .ok r) : ∃ k, r.id = sha16 k := by
  simp only [firmsRow] at h
  cases h1 : pyCell ((pySplitComma row).map pyStrip) ilat with
  | error e => rw [h1] at h; cases h
  | ok slat =>
  rw [h1] at h; dsimp only at h
  cases h2 : pyFloat slat with
  | error e => rw [h2] at h; cases h
  | ok lat =>
  rw [h2] at h; dsimp only at h
  cases h3 : pyCell ((pySplitComma row).map pyStrip) ilon with
  | error e => rw [h3] at h; cases h
  | ok slon =>
  rw [h3] at h; dsimp only at h
  cases h4 : pyFloat slon with
  | error e => rw [h4] at h; cases h
  | ok lon =>
  rw [h4] at h; dsimp only at h
  cases h5 : (match iconf with | some i => pyCell ((pySplitComma row).map pyStrip) i | none => Except.ok "NA") with
  | error e => rw [h5] at h; cases h
  | ok conf =>
  rw [h5] at h; dsimp only at h
  cases h
  exact ⟨_, rfl⟩

theorem airnowItem_id {lat lon : ℚ} {item : Json} {r : Rec}
    (h : airnowItem lat lon item = .ok r) : ∃ k, r.id = sha16 k := by
  simp only [airnowItem] at h
  cases h1 : pySubscript item "ParameterName" with
  | error e => rw [h1] at h; cases h
  | ok pname =>
  rw [h1] at h; dsimp only at h
  cases h2 : pySubscript item "AQI" with
  | error e => rw [h2] at h; cases h
  | ok aqi =>
  rw [h2] at h; dsimp only at h
  cases h3 : pySubscript item "DateObserved" with
  | error e => rw [h3] at h; cases h
  | ok dateObs =>
  rw [h3] at h; dsimp only at h
  cases h4 : pySubscript item "HourObserved" with
  | error e => rw [h4] at h; cases h
  | ok hourObs =>
  rw [h4] at h; dsimp only at h
  cases h5 : pySubscript item "Category" with
  | error e => rw [h5] at h; cases h
  | ok cat =>
  rw [h5] at h; dsimp only at h
  cases h6 : pySubscript cat "Name" with
  | error e => rw [h6] at h; cases h
  | ok catName =>
  rw [h6] at h; dsimp only at h
  cases h7 : pyInt hourObs with
  | error e => rw [h7] at h; cases h
  | ok hh =>
  rw [h7] at h; dsimp only at h
  cases h
  exact ⟨_, rfl⟩

theorem pull_nws_id {states : List String} {fet : Fetch (List NwsAlert)} {l : List Rec} {r : Rec}
    (h : pull_nws_alerts states fet = .ok l) (hr : r ∈ l) : ∃ k, r.id = sha16 k := by
  cases fet with
  | transportError => cases h
  | response st alerts =>
    by_cases hs : 400 ≤ st ∧ st < 600
    · simp only [pull_nws_alerts] at h
      rw [if_pos hs] at h
      cases h
    · simp only [pull_nws_alerts] at h
      rw [if_neg hs] at h
      obtain ⟨p, hp, hstep⟩ := pyMapE_mem h hr
      exact nwsStep_id hstep

theorem pull_nhc_id {fet : Fetch JsonBody} {now : String} {l : List Rec} {r : Rec}
    (h : pull_nhc_current fet now = .ok l) (hr : r ∈ l) : ∃ k, r.id = sha16 k := by
  cases fet with
  | transportError => cases h; cases hr
  | response st body =>
    by_cases hs : 400 ≤ st ∧ st < 600
    · simp only [pull_nhc_current] at h
      rw [if_pos hs] at h
      cases h; cases hr
    · simp only [pull_nhc_current] at h
      rw [if_neg hs] at h
      cases body with
      | malformed => cases h; cases hr
      | value data =>
        dsimp only at h
        cases h1 : pyGetD data "activeStorms" (.arr []) with
        | error e => rw [h1] at h; cases h
        | ok storms =>
        rw [h1] at h; dsimp only at h
        cases storms with
        | arr ss =>
          obtain ⟨s, hsm, hstep⟩ := pyMapE_mem h hr
          exact nhcStorm_id hstep
        | str s' =>
          dsimp only at h
          by_cases he : s'.isEmpty = true
          · rw [if_pos he] at h; cases h; cases hr
          · rw [if_neg he] at h; cases h
        | obj kvs =>
          dsimp only at h
          by_cases he : kvs.isEmpty = true
          · rw [if_pos he] at h; cases h; cases hr
          · rw [if_neg he] at h; cases h
        | null => cases h
        | bool v => cases h
        | num q => cases h

theorem pull_firms_id {key : String} {days lim : Nat} {now : String} {fet : Fetch String}
    {l : List Rec} {r : Rec}
    (h : pull_firms_us key days lim now fet = .ok l) (hr : r ∈ l) : ∃ k, r.id = sha16 k := by
  by_cases hk : key = ""
  · simp only [pull_firms_us] at h
    rw [if_pos hk] at h
    cases h; cases hr
  · simp only [pull_firms_us] at h
    rw [if_neg hk] at h
    cases fet with
    | transportError => cases h
    | response st body =>
      dsimp only at h
      by_cases hc : st = 200 ∧ containsSub "latitude".data (toLowerL (body.data.take 200)) = true
      · rw [if_pos hc] at h
        cases hl : pySplitlines body with
        | nil => rw [hl] at h; cases h
        | cons line0 rest =>
          rw [hl] at h; dsimp only at h
          cases hi1 : pyIndexOf ((pySplitComma line0).map pyStrip) "latitude" with
          | none => rw [hi1] at h; cases h
          | some ilat =>
            rw [hi1] at h; dsimp only at h
            cases hi2 : pyIndexOf ((pySplitComma line0).map pyStrip) "longitude" with
            | none => rw [hi2] at h; cases h
            | some ilon =>
              rw [hi2] at h; dsimp only at h
              obtain ⟨row, hrow, hstep⟩ := pyMapE_mem h hr
              exact firmsRow_id hstep
      · rw [if_neg hc] at h
        cases h; cases hr

theorem pull_airnow_id {lat lon dist : ℚ} {key : String} {fet : Fetch JsonBody}
    {l : List Rec} {r : Rec}
    (h : pull_airnow lat lon dist key fet = .ok l) (hr : r ∈ l) : ∃ k, r.id = sha16 k := by
  by_cases hk : key = ""
  · simp only [pull_airnow] at h
    rw [if_pos hk] at h
    cases h; cases hr
  · simp only [pull_airnow] at h
    rw [if_neg hk] at h
    cases fet with
    | transportError => cases h
    | response st body =>
      dsimp only at h
      by_cases hc : st = 200
      · rw [if_pos hc] at h
        cases body with
        | malformed => cases h
        | value j =>
          dsimp only at h
          cases j with
          | arr items =>
            obtain ⟨item, hitem, hstep⟩ := pyMapE_mem h hr
            exact airnowItem_id hstep
          | obj kvs =>
            dsimp only at h
            by_cases he : kvs.isEmpty = true
            · rw [if_pos he] at h; cases h; cases hr
            · rw [if_neg he] at h; cases h
          | str s' =>
            dsimp only at h
            by_cases he : s'.isEmpty = true
            · rw [if_pos he] at h; cases h; cases hr
            · rw [if_neg he] at h; cases h
          | null => cases h
          | bool v => cases h
          | num q => cases h
      · rw [if_neg hc] at h
        cases h; cases hr

theorem cronChunks_id {body : CronParams} {w : World} {l : List Rec} {r : Rec}
    (h : cronChunks body w = .ok l) (hr : r ∈ l) : ∃ k, r.id = sha16 k := by
  simp only [cronChunks] at h
  cases h1 : (if body.pull_earthquakes then pull_usgs_earthquakes body.min_mag w.usgs else Except.ok []) with
  | error e => rw [h1] at h; cases h
  | ok c1 =>
  rw [h1] at h; dsimp only at h
  cases h2 : (if body.pull_nws then pull_nws_alerts (statesOf body w) w.nws else Except.ok []) with
  | error e => rw [h2] at h; cases h
  | ok c2 =>
  rw [h2] at h; dsimp only at h
  cases h3 : (if body.pull_nhc then pull_nhc_current w.nhc w.now else Except.ok []) with
  | error e => rw [h3] at h; cases h
  | ok c3 =>
  rw [h3] at h; dsimp only at h
  cases h4 : (if body.pull_firms then pull_firms_us w.firmsKey 1 200 w.now w.firms else Except.ok []) with
  | error e => rw [h4] at h; cases h
  | ok c4 =>
  rw [h4] at h; dsimp only at h
  cases h5 : (if airCond body
              then pull_airnow (body.air_lat.getD 0) (body.air_lon.getD 0) 50 w.airnowKey w.airnow
              else Except.ok []) with
  | error e => rw [h5] at h; cases h
  | ok c5 =>
  rw [h5] at h; dsimp only at h
  cases h
  simp only [List.mem_append] at hr
  rcases hr with (((hr | hr) | hr) | hr) | hr
  · rcases Bool.eq_false_or_eq_true body.pull_earthquakes with hb | hb
    · rw [hb] at h1; simp at h1; exact pull_usgs_id h1 hr
    · rw [hb] at h1; simp at h1; subst h1; cases hr
  · rcases Bool.eq_false_or_eq_true body.pull_nws with hb | hb
    · rw [hb] at h2; simp at h2; exact pull_nws_id h2 hr
    · rw [hb] at h2; simp at h2; subst h2; cases hr
  · rcases Bool.eq_false_or_eq_true body.pull_nhc with hb | hb
    · rw [hb] at h3; simp at h3; exact pull_nhc_id h3 hr
    · rw [hb] at h3; simp at h3; subst h3; cases hr
  · rcases Bool.eq_false_or_eq_true body.pull_firms with hb | hb
    · rw [hb] at h4; simp at h4; exact pull_firms_id h4 hr
    · rw [hb] at h4; simp at h4; subst h4; cases hr
  · rcases Bool.eq_false_or_eq_true (airCond body) with hb | hb
    · rw [hb] at h5; simp at h5; exact pull_airnow_id h5 hr
    · rw [hb] at h5; simp at h5; subst h5; cases hr

/-! ## Claim theorems -/

/-- The fire puller's validation gate: any fetched response failing the
    status-and-body check yields the empty list. Shared by several theorems. -/
theorem firmsGateAux (key : String) (days lim : Nat) (now : String) (st : Nat) (body : String)
    (h : ¬ (st = 200 ∧ containsSub "latitude".data (toLowerL (body.data.take 200)) = true)) :
    pull_firms_us key days lim now (.response st body) = .ok [] := by
  by_cases hk : key = ""
  · simp only [pull_firms_us]; rw [if_pos hk]
  · simp only [pull_firms_us]; rw [if_neg hk]; rw [if_neg h]

/-- Claim C8: a fetched fire-detection response whose status is not 200, or
    whose body lacks "latitude" (case-insensitively) in its first 200
    characters, makes pull_firms_us return the empty list without raising. -/
theorem firms_validation_gate (key : String) (days lim : Nat) (now : String)
    (st : Nat) (body : String)
    (h : st ≠ 200 ∨ containsSub "latitude".data (toLowerL (body.data.take 200)) = false) :
    pull_firms_us key days lim now (.response st body) = .ok [] := by
  apply firmsGateAux
  rcases h with h | h
  · exact fun hc => h hc.1
  · intro hc; rw [h] at hc; exact Bool.noConfusion hc.2

/-- Claim C8 witness: a 500 response and a key-error body are both suppressed. -/
theorem firms_validation_gate_witness :
    pull_firms_us "MAPKEY" 1 200 "t" (.response 500 "latitude,longitude\n1,2") = .ok []
  ∧ pull_firms_us "MAPKEY" 1 200 "t" (.response 200 "Invalid MAP_KEY.") = .ok [] :=
  ⟨firms_validation_gate "MAPKEY" 1 200 "t" 500 _ (Or.inl (by decide)),
   firms_validation_gate "MAPKEY" 1 200 "t" 200 _ (Or.inr (by decide))⟩

/-- Claim C9: only the first limit_rows data rows after the header are
    processed, so a successful pull returns at most limit_rows records. -/
theorem firms_row_limit (key : String) (days lim : Nat) (now : String)
    (fet : Fetch String) (l : List Rec)
    (h : pull_firms_us key days lim now fet = .ok l) : l.length ≤ lim := by
  by_cases hk : key = ""
  · simp only [pull_firms_us] at h; rw [if_pos hk] at h; cases h; simp
  · simp only [pull_firms_us] at h; rw [if_neg hk] at h
    cases fet with
    | transportError => cases h
    | response st body =>
      dsimp only at h
      by_cases hc : st = 200 ∧ containsSub "latitude".data (toLowerL (body.data.take 200)) = true
      · rw [if_pos hc] at h
        cases hl : pySplitlines body with
        | nil => rw [hl] at h; cases h
        | cons line0 rest =>
          rw [hl] at h; dsimp only at h
          cases hi1 : pyIndexOf ((pySplitComma line0).map pyStrip) "latitude" with
          | none => rw [hi1] at h; cases h
          | some ilat =>
            rw [hi1] at h; dsimp only at h
            cases hi2 : pyIndexOf ((pySplitComma line0).map pyStrip) "longitude" with
            | none => rw [hi2] at h; cases h
            | some ilon =>
              rw [hi2] at h; dsimp only at h
              rw [pyMapE_length h]
              exact List.length_take_le lim rest
      · rw [if_neg hc] at h
        cases h
        simp

/-- Claim C9 witness: a three-row feed pulled with limit 2 yields at most 2 records. -/
theorem firms_row_limit_witness :
    (okList (pull_firms_us "MAPKEY" 1 2 "t"
      (.response 200 "latitude,longitude\n1.5,2.5\n3.5,4.5\n5.5,6.5"))).length ≤ 2 :=
  firms_row_limit "MAPKEY" 1 2 "t"
    (.response 200 "latitude,longitude\n1.5,2.5\n3.5,4.5\n5.5,6.5") _ (by rfl)

/-- Claim C1 (amended): the storm-advisory puller suppresses transport errors,
    error statuses, and JSON-decode failures into []; the fire puller
    suppresses any non-200 status and any body failing the latitude check; the
    air-quality puller suppresses any non-200 status. But a transport error in
    the fire or air-quality puller propagates (their fetches sit in no try
    block), and post-parse shape errors propagate in all three: a storm body
    that parses to a JSON array raises AttributeError outside the try, a fire
    body passing the latitude check without a "latitude" header column raises
    ValueError, and an air-quality 200 body parsing to a JSON number raises
    TypeError. -/
theorem best_effort_suppression :
    (∀ now, pull_nhc_current .transportError now = .ok [])
  ∧ (∀ st body now, 400 ≤ st → st < 600 → pull_nhc_current (.response st body) now = .ok [])
  ∧ (∀ st now, pull_nhc_current (.response st .malformed) now = .ok [])
  ∧ (∀ key days lim now st body, st ≠ 200 →
       pull_firms_us key days lim now (.response st body) = .ok [])
  ∧ (∀ key days lim now st body,
       containsSub "latitude".data (toLowerL (body.data.take 200)) = false →
       pull_firms_us key days lim now (.response st body) = .ok [])
  ∧ (∀ lat lon dist key st body, st ≠ 200 →
       pull_airnow lat lon dist key (.response st body) = .ok [])
  ∧ (∀ key days lim now, key ≠ "" →
       pull_firms_us key days lim now .transportError = .error .transportError)
  ∧ (∀ lat lon dist key, key ≠ "" →
       pull_airnow lat lon dist key .transportError = .error .transportError)
  ∧ (∀ now st xs, ¬ (400 ≤ st ∧ st < 600) →
       pull_nhc_current (.response st (.value (.arr xs))) now = .error .attributeError)
  ∧ (∀ key days lim now, key ≠ "" →
       pull_firms_us key days lim now (.response 200 "latitudex") = .error .valueError)
  ∧ (∀ lat lon dist key q, key ≠ "" →
       pull_airnow lat lon dist key (.response 200 (.value (.num q))) = .error .typeError) := by
  refine ⟨?_, ?_, ?_, ?_, ?_, ?_, ?_, ?_, ?_, ?_, ?_⟩
  · intro now; rfl
  · intro st body now h1 h2
    simp only [pull_nhc_current]; rw [if_pos ⟨h1, h2⟩]
  · intro st now
    simp only [pull_nhc_current]
    by_cases hs : 400 ≤ st ∧ st < 600
    · rw [if_pos hs]
    · rw [if_neg hs]
  · intro key days lim now st body hst
    exact firmsGateAux key days lim now st body (fun hc => hst hc.1)
  · intro key days lim now st body hlat
    apply firmsGateAux
    intro hc; rw [hlat] at hc; exact Bool.noConfusion hc.2
  · intro lat lon dist key st body hst
    by_cases hk : key = ""
    · simp only [pull_airnow]; rw [if_pos hk]
    · simp only [pull_airnow]; rw [if_neg hk]; rw [if_neg hst]
  · intro key days lim now hk
    simp only [pull_firms_us]; rw [if_neg hk]
  · intro lat lon dist key hk
    simp only [pull_airnow]; rw [if_neg hk]
  · intro now st xs hst
    simp only [pull_nhc_current]; rw [if_neg hst]; rfl
  · intro key days lim now hk
    simp only [pull_firms_us]; rw [if_neg hk]; rfl
  · intro lat lon dist key q hk
    simp only [pull_airnow]; rw [if_neg hk]; rfl

/-- Claim C1 counterexample: failures the claim says degrade silently instead
    raise — a transport failure in the fire and air-quality pullers, and a
    post-parse shape failure in each of the three best-effort pullers. -/
theorem best_effort_failures_cex :
    pull_firms_us "MAPKEY" 1 200 "t" .transportError = .error .transportError
  ∧ pull_airnow 40 10 50 "AKEY" .transportError = .error .transportError
  ∧ pull_nhc_current (.response 200 (.value (.arr []))) "t" = .error .attributeError
  ∧ pull_firms_us "MAPKEY" 1 200 "t" (.response 200 "latitudex") = .error .valueError
  ∧ pull_airnow 40 10 50 "AKEY" (.response 200 (.value (.num 3))) = .error .typeError :=
  ⟨rfl, rfl, rfl, rfl, rfl⟩

/-- Claim C1 witness: each suppressed failure mode, and each propagating
    failure mode, at a concrete input. -/
theorem best_effort_suppression_witness :
    pull_nhc_current .transportError "t" = .ok []
  ∧ pull_nhc_current (.response 503 (.value (.obj [("activeStorms", .arr [])]))) "t" = .ok []
  ∧ pull_nhc_current (.response 200 .malformed) "t" = .ok []
  ∧ pull_firms_us "MAPKEY" 1 200 "t" (.response 404 "latitude,longitude") = .ok []
  ∧ pull_firms_us "MAPKEY" 1 200 "t" (.response 200 "Invalid MAP_KEY request.") = .ok []
  ∧ pull_airnow 40 (-73) 50 "AKEY" (.response 500 .malformed) = .ok []
  ∧ pull_airnow 40 (-73) 50 "AKEY" .transportError = .error .transportError
  ∧ pull_nhc_current (.response 200 (.value (.arr [.num 1]))) "t" = .error .attributeError
  ∧ pull_firms_us "KEY2" 7 50 "t" (.response 200 "latitudex") = .error .valueError
  ∧ pull_airnow 40 (-73) 50 "AKEY" (.response 200 (.value (.num 7))) = .error .typeError :=
  ⟨best_effort_suppression.1 "t",
   best_effort_suppression.2.1 503 _ "t" (by decide) (by decide),
   best_effort_suppression.2.2.1 200 "t",
   best_effort_suppression.2.2.2.1 "MAPKEY" 1 200 "t" 404 _ (by decide),
   best_effort_suppression.2.2.2.2.1 "MAPKEY" 1 200 "t" 200 _ (by decide),
   best_effort_suppression.2.2.2.2.2.1 40 (-73) 50 "AKEY" 500 _ (by decide),
   best_effort_suppression.2.2.2.2.2.2.2.1 40 (-73) 50 "AKEY" (by decide),
   best_effort_suppression.2.2.2.2.2.2.2.2.1 "t" 200 [.num 1] (by decide),
   best_effort_suppression.2.2.2.2.2.2.2.2.2.1 "KEY2" 7 50 "t" (by decide),
   best_effort_suppression.2.2.2.2.2.2.2.2.2.2 40 (-73) 50 "AKEY" 7 (by decide)⟩

/-- Claim C4: a produced earthquake record's id is sha16 of the key built from
    the event's epoch-ms time, latitude and longitude only, so two events
    agreeing on those three fields get the same id whatever their other
    fields, the thresholds, or the wall clock. -/
theorem usgs_id_deterministic (m1 m2 : ℚ) (f1 f2 : UsgsFeature) {r1 r2 : Rec}
    (h1 : usgsStep m1 f1 = some r1) (h2 : usgsStep m2 f2 = some r2)
    (ht : f1.time = f2.time) (hla : f1.lat = f2.lat) (hlo : f1.lon = f2.lon) :
    r1.id = sha16 ("eq-" ++ ratStr f1.time ++ "-" ++ ratStr f1.lat ++ "-" ++ ratStr f1.lon)
  ∧ r1.id = r2.id := by
  have e1 := usgsStep_id h1
  have e2 := usgsStep_id h2
  refine ⟨e1, ?_⟩
  rw [e1, e2, ht, hla, hlo]

/-- Claim C4 witness: two events sharing time/lat/lon but differing in
    magnitude, place, url and depth receive the same id. -/
theorem usgs_id_deterministic_witness :
    ((usgsStep (mkRat 5 2) eqFeatA).getD defaultRec).id = ((usgsStep 3 eqFeatB).getD defaultRec).id :=
  (usgs_id_deterministic (mkRat 5 2) 3 eqFeatA eqFeatB (by rfl) (by rfl) rfl rfl rfl).2

/-- Claim C3: a produced weather-alert record's crisis is classified by
    case-insensitive substring match on the event name, checked in order:
    "hurricane" or "tropical" give hurricane, else "flood" gives flood, else
    severe_weather. -/
theorem nws_crisis_classification (p : NwsAlert) (r : Rec) (h : nwsStep p = .ok r) :
    (containsSubS "hurricane" (eventLower p) = true ∨ containsSubS "tropical" (eventLower p) = true →
      r.crisis = "hurricane")
  ∧ (containsSubS "hurricane" (eventLower p) = false → containsSubS "tropical" (eventLower p) = false →
      containsSubS "flood" (eventLower p) = true → r.crisis = "flood")
  ∧ (containsSubS "hurricane" (eventLower p) = false → containsSubS "tropical" (eventLower p) = false →
      containsSubS "flood" (eventLower p) = false → r.crisis = "severe_weather") := by
  simp only [nwsStep] at h
  cases hk : pyOrS (pyOrS p.atId p.pid) (pyOrS p.headline p.event) with
  | none => rw [hk] at h; cases h
  | some key =>
    rw [hk] at h
    cases h
    refine ⟨?_, ?_, ?_⟩
    · rintro (hc | hc) <;> simp [hc]
    · intro hc1 hc2 hc3; simp [hc1, hc2, hc3]
    · intro hc1 hc2 hc3; simp [hc1, hc2, hc3]

/-- Claim C3 witness: "Hurricane Warning" classifies as hurricane, "Flood
    Watch" as flood, "Winter Storm Warning" as severe_weather. -/
theorem nws_crisis_classification_witness :
    Except.map Rec.crisis (nwsStep alertHurricane) = .ok "hurricane"
  ∧ Except.map Rec.crisis (nwsStep alertFlood) = .ok "flood"
  ∧ Except.map Rec.crisis (nwsStep alertWinter) = .ok "severe_weather" := by
  refine ⟨?_, ?_, ?_⟩
  · obtain ⟨r, hr⟩ : ∃ r, nwsStep alertHurricane = .ok r := ⟨_, rfl⟩
    rw [hr]
    have hc := (nws_crisis_classification alertHurricane r hr).1 (Or.inl (by decide))
    simp [Except.map, hc]
  · obtain ⟨r, hr⟩ : ∃ r, nwsStep alertFlood = .ok r := ⟨_, rfl⟩
    rw [hr]
    have hc := (nws_crisis_classification alertFlood r hr).2.1 (by decide) (by decide) (by decide)
    simp [Except.map, hc]
  · obtain ⟨r, hr⟩ : ∃ r, nwsStep alertWinter = .ok r := ⟨_, rfl⟩
    rw [hr]
    have hc := (nws_crisis_classification alertWinter r hr).2.2 (by decide) (by decide) (by decide)
    simp [Except.map, hc]

/-- Claim C5: the endpoint invokes the (actually invoked) pullers in the fixed
    order seismic, weather-alert, storm-advisory, fire, air-quality, and its
    record list is exactly the concatenation of their outputs in that order,
    preserving per-puller order, with no deduplication. -/
theorem cron_concat (body : CronParams) (w : World) (e a n f q : List Rec)
    (he : body.pull_earthquakes = true → pull_usgs_earthquakes body.min_mag w.usgs = .ok e)
    (ha : body.pull_nws = true → pull_nws_alerts (statesOf body w) w.nws = .ok a)
    (hn : body.pull_nhc = true → pull_nhc_current w.nhc w.now = .ok n)
    (hf : body.pull_firms = true → pull_firms_us w.firmsKey 1 200 w.now w.firms = .ok f)
    (hq : airCond body = true →
      pull_airnow (body.air_lat.getD 0) (body.air_lon.getD 0) 50 w.airnowKey w.airnow = .ok q) :
    cronChunks body w =
      .ok ((if body.pull_earthquakes then e else []) ++ (if body.pull_nws then a else []) ++
           (if body.pull_nhc then n else []) ++ (if body.pull_firms then f else []) ++
           (if airCond body then q else [])) := by
  have h1 : (if body.pull_earthquakes then pull_usgs_earthquakes body.min_mag w.usgs else Except.ok []) =
      .ok (if body.pull_earthquakes then e else []) := by
    cases hb : body.pull_earthquakes
    · simp [hb]
    · simp [hb, he hb]
  have h2 : (if body.pull_nws then pull_nws_alerts (statesOf body w) w.nws else Except.ok []) =
      .ok (if body.pull_nws then a else []) := by
    cases hb : body.pull_nws
    · simp [hb]
    · simp [hb, ha hb]
  have h3 : (if body.pull_nhc then pull_nhc_current w.nhc w.now else Except.ok []) =
      .ok (if body.pull_nhc then n else []) := by
    cases hb : body.pull_nhc
    · simp [hb]
    · simp [hb, hn hb]
  have h4 : (if body.pull_firms then pull_firms_us w.firmsKey 1 200 w.now w.firms else Except.ok []) =
      .ok (if body.pull_firms then f else []) := by
    cases hb : body.pull_firms
    · simp [hb]
    · simp [hb, hf hb]
  have h5 : (if airCond body
             then pull_airnow (body.air_lat.getD 0) (body.air_lon.getD 0) 50 w.airnowKey w.airnow
             else Except.ok []) = .ok (if airCond body then q else []) := by
    cases hb : airCond body
    · simp [hb]
    · simp [hb, hq hb]
  simp only [cronChunks, h1, h2, h3, h4, h5]

/-- Claim C5 witness: a concrete request against concrete feeds produces the
    concatenation of all five pullers' outputs in order. -/
theorem cron_concat_witness :
    cronChunks demoBody demoWorld =
      .ok (okList (pull_usgs_earthquakes demoBody.min_mag demoWorld.usgs) ++
           okList (pull_nws_alerts (statesOf demoBody demoWorld) demoWorld.nws) ++
           okList (pull_nhc_current demoWorld.nhc demoWorld.now) ++
           okList (pull_firms_us demoWorld.firmsKey 1 200 demoWorld.now demoWorld.firms) ++
           okList (pull_airnow (demoBody.air_lat.getD 0) (demoBody.air_lon.getD 0) 50
                     demoWorld.airnowKey demoWorld.airnow)) := by
  have h := cron_concat demoBody demoWorld _ _ _ _ _
    (fun _ => by rfl) (fun _ => by rfl) (fun _ => by rfl) (fun _ => by rfl) (fun _ => by rfl)
  exact h

/-- Claim C6: an empty record list yields the zero/note object; a non-empty
    one yields added = total count and chunks = first two records; and the
    response never depends on the ingestion collaborator (nothing is sent). -/
theorem cron_response (body : CronParams) (w : World) (l : List Rec)
    (h : cronChunks body w = .ok l) :
    (l = [] → cron_pull body w = .ok (.noChunks 0 "no chunks produced (check keys/flags)"))
  ∧ (l ≠ [] → cron_pull body w = .ok (.preview l.length (l.take 2)))
  ∧ (∀ i, cron_pull body { w with ingest := i } = cron_pull body w) := by
  refine ⟨?_, ?_, ?_⟩
  · intro hl
    subst hl
    simp [cron_pull, h]
  · intro hl
    simp [cron_pull, h, List.isEmpty_eq_false.mpr hl]
  · intro i
    rfl

/-- Claim C6 witness: all pullers disabled gives the zero/note response; the
    demo request gives the count-plus-first-two preview; swapping the
    ingestion collaborator's answer changes nothing. -/
theorem cron_response_witness :
    cron_pull emptyBody demoWorld = .ok (.noChunks 0 "no chunks produced (check keys/flags)")
  ∧ cron_pull demoBody demoWorld =
      .ok (.preview demoChunks.length (demoChunks.take 2))
  ∧ cron_pull emptyBody { demoWorld with ingest := .response 200 (.value (.obj [])) } =
      cron_pull emptyBody demoWorld :=
  ⟨(cron_response emptyBody demoWorld [] (by rfl)).1 rfl,
   (cron_response demoBody demoWorld demoChunks (by rfl)).2.1 (List.cons_ne_nil _ _),
   (cron_response emptyBody demoWorld [] (by rfl)).2.2 _⟩

/-- Claim C7 (amended): the air-quality puller runs iff its flag is set and
    both coordinates are truthy — present and nonzero. A present-but-zero
    coordinate (lat 0.0 or lon 0.0) is falsy in Python, so it disables the
    puller even though the value is present. -/
theorem cron_airnow_gate (body : CronParams) (w : World)
    (he : body.pull_earthquakes = false) (hn : body.pull_nws = false)
    (hh : body.pull_nhc = false) (hf : body.pull_firms = false) :
    cronChunks body w =
      (if airCond body
       then pull_airnow (body.air_lat.getD 0) (body.air_lon.getD 0) 50 w.airnowKey w.airnow
       else .ok [])
  ∧ (airCond body = true ↔
      body.pull_airnow = true
      ∧ (∃ x, body.air_lat = some x ∧ x ≠ 0)
      ∧ (∃ y, body.air_lon = some y ∧ y ≠ 0)) := by
  constructor
  · cases hb : airCond body
    · simp [cronChunks, he, hn, hh, hf, hb]
    · simp only [cronChunks, he, hn, hh, hf, hb]
      cases hp : pull_airnow (body.air_lat.getD 0) (body.air_lon.getD 0) 50 w.airnowKey w.airnow
      <;> simp [hp]
  · rcases hla : body.air_lat with _ | x <;> rcases hlo : body.air_lon with _ | y <;>
      simp [airCond, truthyQ, hla, hlo, Bool.and_eq_true, and_assoc]

/-- Claim C7 witness: flag set and both coordinates nonzero makes the
    aggregate exactly the air-quality puller's output. -/
theorem cron_airnow_gate_witness :
    cronChunks gateBody demoWorld =
      pull_airnow 1 10 50 demoWorld.airnowKey demoWorld.airnow :=
  (cron_airnow_gate gateBody demoWorld rfl rfl rfl rfl).1

/-- Claim C7 counterexample: air_lat = 0.0 is present and the flag is true,
    the feed would contribute a record, yet the equator coordinate is falsy in
    Python so the air-quality puller is never invoked and the aggregate is
    empty. -/
theorem cron_airnow_zero_lat_cex :
    zeroLatBody.pull_airnow = true
  ∧ zeroLatBody.air_lat = some 0
  ∧ zeroLatBody.air_lon = some 10
  ∧ cronChunks zeroLatBody demoWorld = .ok []
  ∧ Except.map List.length (pull_airnow 0 10 50 demoWorld.airnowKey demoWorld.airnow) = .ok 1 :=
  ⟨rfl, rfl, rfl, rfl, rfl⟩

/-- Claim C10: every record any puller contributes to the aggregate has an id
    of the form sha16 of some key string, and sha16 always returns exactly the
    first 16 characters of the lowercase-hex SHA-256 digest — a 16-character
    lowercase-hex string, uniformly across all five sources. -/
theorem record_id_shape :
    (∀ s, (sha16 s).length = 16 ∧ (sha16 s).data.all isLowerHex = true)
  ∧ (∀ body w l r, cronChunks body w = .ok l → r ∈ l →
      (∃ k, r.id = sha16 k) ∧ r.id.length = 16 ∧ r.id.data.all isLowerHex = true) := by
  constructor
  · intro s
    exact ⟨sha16_length s, sha16_lowerHex s⟩
  · intro body w l r h hr
    obtain ⟨k, hk⟩ := cronChunks_id h hr
    exact ⟨⟨k, hk⟩, by rw [hk]; exact sha16_length k, by rw [hk]; exact sha16_lowerHex k⟩

/-- Claim C10 witness: the id shape at a concrete key and at the first record
    of a concrete aggregation run. -/
theorem record_id_shape_witness :
    (sha16 "eq-5-6-7").length = 16
  ∧ (sha16 "eq-5-6-7").data.all isLowerHex = true
  ∧ demoRec.id.length = 16
  ∧ demoRec.id.data.all isLowerHex = true := by
  have h : cronChunks demoBody demoWorld = .ok demoChunks := by rfl
  have hr : demoRec ∈ demoChunks := by
    have he : demoChunks = demoRec :: demoChunks.tail := by rfl
    rw [he]
    exact List.mem_cons_self _ _
  exact ⟨(record_id_shape.1 "eq-5-6-7").1, (record_id_shape.1 "eq-5-6-7").2,
         (record_id_shape.2 demoBody demoWorld demoChunks demoRec h hr).2.1,
         (record_id_shape.2 demoBody demoWorld demoChunks demoRec h hr).2.2⟩
